import Mathlib

/-!
Verification development for the ebook-generator service (`app.py`).

The handler `generate_ebook`, its helpers `_response_text` and
`_extract_text_from_uploads`, the prompt templates and the output-path
resolution are shallowly embedded below.  External collaborators (the Gemini
and OpenAI clients, `pypdf`, `markdown`, WeasyPrint) are modelled as oracle
functions whose outcomes are supplied as parameters; everything the local
code does with those outcomes is translated faithfully from the source.

String primitives (`strip`, `lower`, `endswith`, `join`, path splitting) are
re-implemented over `List Char` by structural recursion so that every
definition evaluates inside the kernel.
-/

set_option maxRecDepth 40000

/-! ## String primitives (models of the Python `str` operations used) -/

/-- ASCII whitespace, as used by `str.strip()` on the inputs at hand. -/
def isSpaceChar (c : Char) : Bool :=
  c = ' ' || c = '\t' || c = '\n' || c = '\r' || c = '\x0b' || c = '\x0c'

/-- Model of `str.strip()`: drop leading and trailing whitespace. -/
def strTrim (s : String) : String :=
  String.mk (((s.data.dropWhile isSpaceChar).reverse.dropWhile isSpaceChar).reverse)

/-- Lower-case one ASCII character, as `str.lower()` does on the filenames. -/
def lowerChar (c : Char) : Char :=
  if 'A' ≤ c ∧ c ≤ 'Z' then Char.ofNat (c.toNat + 32) else c

/-- Model of `str.lower()`. -/
def strLower (s : String) : String :=
  String.mk (s.data.map lowerChar)

/-- Bool test that `pat` is a prefix of the list. -/
def leadsWith {α : Type} [DecidableEq α] : List α → List α → Bool
  | [], _ => true
  | _ :: _, [] => false
  | a :: xs, b :: ys => if a = b then leadsWith xs ys else false

/-- Model of `str.endswith(sfx)`. -/
def strEndsWith (s sfx : String) : Bool :=
  leadsWith sfx.data.reverse s.data.reverse

/-- Bool test that `needle` occurs as a contiguous run inside `hay`. -/
def occursIn {α : Type} [DecidableEq α] : List α → List α → Bool
  | needle, [] => needle.isEmpty
  | needle, b :: rest => leadsWith needle (b :: rest) || occursIn needle rest

/-- Substring test on strings (models Python `needle in hay`). -/
def strOccurs (needle hay : String) : Bool :=
  occursIn needle.data hay.data

/-- Model of `sep.join(xs)`. -/
def joinWith (sep : String) : List String → String
  | [] => ""
  | [x] => x
  | x :: y :: rest => x ++ sep ++ joinWith sep (y :: rest)

/-- Model of `"".join(xs)`. -/
def concatAll : List String → String
  | [] => ""
  | x :: rest => x ++ concatAll rest

/-! ## Output-path resolution (`generate_ebook`, the `output_path` block)

A filesystem path is modelled as its list of name components; an absolute
path is the component list below the root.  `Path.resolve()` normalises
`..` components against the components accumulated so far (at the root,
`/..` stays at the root, which `List.dropLast []` models). -/

/-- Split raw path text on the `/` separator (components of `Path(raw)`). -/
def splitOnSlashAux : List Char → List Char → List String
  | [], cur => [String.mk cur.reverse]
  | c :: rest, cur =>
    if c = '/' then String.mk cur.reverse :: splitOnSlashAux rest []
    else splitOnSlashAux rest (c :: cur)

/-- Components of a raw path string, dropping empty runs and `.` the way
`pathlib` does. -/
def splitSegs (s : String) : List String :=
  (splitOnSlashAux s.data []).filter (fun t => !(t == "" || t == "."))

/-- One pass of `Path.resolve()` over components: `..` discards the last
accumulated component, anything else is appended. -/
def resolveComps : List String → List String → List String
  | acc, [] => acc
  | acc, c :: rest =>
    if c = ".." then resolveComps acc.dropLast rest
    else resolveComps (acc ++ [c]) rest

/-- First-character test (drives `Path.expanduser` and `Path.is_absolute`). -/
def firstCharIs (s : String) (c : Char) : Bool :=
  match s.data with
  | [] => false
  | d :: _ => d = c

/-- Model of the `output_path_raw` branch of `generate_ebook`:
`Path(raw).expanduser()`, then `(BASE_DIR / p).resolve()` when relative and
`p.resolve()` when absolute.  `base` is the component list of the (already
resolved) `BASE_DIR`.  `expand raw` is the component list of the absolute
path `Path(raw).expanduser()` yields for a `~`-prefixed override: the
invoking user's home directory (with the remainder appended) for `~` and
`~/...`, the named user's own home directory for `~user/...`; `expanduser`
may instead raise `RuntimeError` for an unknown user — an uncaught
pre-validation failure path the model does not represent. -/
def resolve_output_pdf (base : List String) (expand : String → List String)
    (raw : String) : List String :=
  if firstCharIs raw '~' then resolveComps [] (expand raw)
  else if firstCharIs raw '/' then resolveComps [] (splitSegs raw)
  else resolveComps [] (base ++ splitSegs raw)

/-- Full output-path computation including the empty-override default
`DEFAULT_OUTPUT_PDF = BASE_DIR / "ebook_gerado.pdf"`. -/
def resolved_output (base : List String) (expand : String → List String)
    (raw : String) : List String :=
  if raw = "" then base ++ ["ebook_gerado.pdf"]
  else resolve_output_pdf base expand raw

/-- Model of `Path.name`: the final component. -/
def pathName (p : List String) : String := p.getLastD ""

/-! ## Generic list lemmas for the prefix and substring predicates -/

theorem leadsWith_append {α : Type} [DecidableEq α] (xs ys : List α) :
    leadsWith xs (xs ++ ys) = true := by
  induction xs with
  | nil => rfl
  | cons a l ih => simpa [leadsWith] using ih

theorem occursIn_append_left {α : Type} [DecidableEq α] (xs ys : List α) :
    occursIn xs (xs ++ ys) = true := by
  cases xs with
  | nil =>
    cases ys with
    | nil => rfl
    | cons b l => simp [occursIn, leadsWith]
  | cons a l => simp [occursIn, leadsWith, leadsWith_append]

theorem occursIn_append_right {α : Type} [DecidableEq α] (pre : List α)
    {n ys : List α} (h : occursIn n ys = true) :
    occursIn n (pre ++ ys) = true := by
  induction pre with
  | nil => simpa using h
  | cons a l ih => simp [occursIn, ih]

theorem string_data_append (a b : String) : (a ++ b).data = a.data ++ b.data := by
  cases a; cases b; rfl

theorem resolveComps_no_up (l : List String) :
    ∀ acc : List String, (∀ c ∈ l, c ≠ "..") → resolveComps acc l = acc ++ l := by
  induction l with
  | nil => intro acc _; simp [resolveComps]
  | cons c rest ih =>
    intro acc h
    have hc : c ≠ ".." := h c (List.mem_cons_self c rest)
    have hrest : ∀ d ∈ rest, d ≠ ".." := fun d hd => h d (List.mem_cons_of_mem c hd)
    simp [resolveComps, hc, ih (acc ++ [c]) hrest]

/-! ## Provider responses and `_response_text` -/

/-- One `part` of a Gemini candidate content: its optional `text` field. -/
structure GenPart where
  text : Option String

/-- The `content` of a candidate: its optional `parts` list (a `none` models
an absent attribute, `some []` an empty list, both falsy in Python). -/
structure GenContent where
  parts : Option (List GenPart)

/-- One `candidate` of a Gemini response. -/
structure GenCandidate where
  content : Option GenContent

/-- A Gemini response object as `_response_text` inspects it: optional
top-level `text` plus optional `candidates`. -/
structure GenResponse where
  text : Option String
  candidates : Option (List GenCandidate)

/-- The texts one candidate contributes in the `_response_text` loop: skip a
falsy `content` or `parts` (absent attribute or empty list), then collect
every `str`-typed part text, empty ones included. -/
def candidate_texts (c : GenCandidate) : List String :=
  match c.content with
  | none => []
  | some ct =>
    match ct.parts with
    | none => []
    | some [] => []
    | some ps => ps.filterMap (fun p => p.text)

/-- The candidate walk of `_response_text`.  The `some []` case mirrors
Python's `if not candidates: return ""`. -/
def response_text_from_candidates (r : GenResponse) : String :=
  match r.candidates with
  | none => ""
  | some [] => ""
  | some cs => concatAll (cs.flatMap candidate_texts)

/-- Model of `_response_text`: return the top-level `text` when it is a
string with non-blank strip, otherwise fall back to the candidate walk. -/
def response_text (r : GenResponse) : String :=
  match r.text with
  | some t => if strTrim t = "" then response_text_from_candidates r else t
  | none => response_text_from_candidates r

/-- Modelled from the spec's words for the refinement comparison in C5: the
textual parts of one candidate output, in the order provided. -/
def spec_candidate_texts (c : GenCandidate) : List String :=
  ((c.content.map fun ct => ct.parts.getD []).getD []).filterMap fun p => p.text

/-- Modelled from the spec's words for the refinement comparison in C5:
"the concatenation of all textual parts across all candidate outputs, in
the order provided". -/
def spec_candidate_concat (r : GenResponse) : String :=
  concatAll ((r.candidates.getD []).flatMap spec_candidate_texts)

/-- Bool test of `_response_text`'s first guard failing: the top-level text
field is absent or blank. -/
def top_text_blank (r : GenResponse) : Bool :=
  match r.text with
  | none => true
  | some t => strTrim t == ""

theorem candidate_texts_eq_spec (c : GenCandidate) :
    candidate_texts c = spec_candidate_texts c := by
  obtain ⟨content⟩ := c
  cases content with
  | none => rfl
  | some ct =>
    obtain ⟨ps⟩ := ct
    cases ps with
    | none => rfl
    | some l => cases l <;> rfl

theorem response_text_from_candidates_eq_spec (r : GenResponse) :
    response_text_from_candidates r = spec_candidate_concat r := by
  have hf : candidate_texts = spec_candidate_texts := funext candidate_texts_eq_spec
  obtain ⟨text, cands⟩ := r
  cases cands with
  | none => rfl
  | some cs =>
    cases cs with
    | nil => rfl
    | cons c rest =>
      simp only [response_text_from_candidates, spec_candidate_concat, hf, Option.getD]

/-! ## Uploaded files and `_extract_text_from_uploads` -/

/-- One uploaded file as the extractor sees it.  `isEmpty` models the
falsiness of the raw bytes; `pdfPages` the outcome of `PdfReader` plus
`page.extract_text()` per page when the (lower-cased) name ends in `.pdf`
(`Except.error` models a raised exception, a page's `none` an extraction
returning nothing); `txtDecoded` the `bytes.decode("utf-8", errors="ignore")`
result used when the name ends in `.txt`. -/
structure UploadFile where
  filename : String
  isEmpty : Bool
  pdfPages : Except String (List (Option String))
  txtDecoded : String

/-- A page's contribution: its text when truthy (non-`None`, non-empty). -/
def pageFragment (o : Option String) : Option String :=
  match o with
  | none => none
  | some t => if t = "" then none else some t

/-- Model of `_extract_text_from_uploads`: walk the files in order, skip
empty bodies, read `.pdf` files page by page (a reader exception aborts the
whole extraction, mirroring the absent try/except), append `.txt` decodes,
and silently ignore any other extension. -/
def extract_text_from_uploads : List UploadFile → Except String (List String)
  | [] => .ok []
  | f :: rest =>
    if f.isEmpty then extract_text_from_uploads rest
    else if strEndsWith (strLower f.filename) ".pdf" then
      match f.pdfPages with
      | .error e => .error e
      | .ok pages =>
        match extract_text_from_uploads rest with
        | .error e => .error e
        | .ok ts => .ok (pages.filterMap pageFragment ++ ts)
    else if strEndsWith (strLower f.filename) ".txt" then
      match extract_text_from_uploads rest with
      | .error e => .error e
      | .ok ts => .ok (f.txtDecoded :: ts)
    else
      extract_text_from_uploads rest

/-- The fragments a single upload contributes when no reader exception
occurs. -/
def upload_fragments (f : UploadFile) : List String :=
  if f.isEmpty then []
  else if strEndsWith (strLower f.filename) ".pdf" then
    match f.pdfPages with
    | .ok pages => pages.filterMap pageFragment
    | .error _ => []
  else if strEndsWith (strLower f.filename) ".txt" then [f.txtDecoded]
  else []

/-! ## Prompt templates

The three templates of `generate_ebook`, transcribed verbatim.  Python's
`str.format` / f-string interpolation becomes string concatenation around
the literal chunks; the `.strip()` applied to the two triple-quoted
templates before formatting is reflected by starting and ending the chunks
at the stripped boundaries.  The analysis prompt is an f-string stripped
after interpolation, so its model keeps the outer `strTrim`. -/

/-- Literal chunk of `content_prompt_template` before `{personality}`. -/
def cptA : String :=
  "Voce e um escritor profissional de ebooks mestre em markdown com a personalidade e habilidades definidas pelo usuario: \""

/-- Literal chunk of `content_prompt_template` between `{personality}` and
`{analysis_summary}`. -/
def cptB : String :=
  "\".\nSua tarefa e elaborar um manuscrito completo e altamente profissional, utilizando **exclusivamente** o conteudo principal e as referencias fornecidas.\n\n**Resumo pre-analisado pelo assistente (use como guia de estrutura):**\n"

/-- Literal chunk of `content_prompt_template` between `{analysis_summary}`
and `{text_content}`. -/
def cptC : String :=
  "\n\n**Instrucoes obrigatorias:**\n1.  **Estrutura:** Construa uma narrativa coesa com Introducao, capitulos bem estruturados, subtitulos e uma conclusao forte.\n2.  **Conteudo:** Use apenas o material fornecido. **Nao** introduza informacoes externas, opinioes ou historias que nao estejam no material.\n3.  **Formato:** O resultado deve ser **Markdown otimizado para conversao em PDF especificamente para o formato de ebook**, sem comentarios, explicacoes ou textos adicionais.\n4.  **Quebras de pagina:** Para forcar uma nova pagina no PDF (ideal para o inicio de capitulos ou secoes principais), utilize a tag HTML `<div class=\"page-break\"></div>` imediatamente antes do cabecalho do novo capitulo.\n5.  **Sumario e indice:** Inclua um Sumario conciso e envolvente no inicio. O Indice deve listar os titulos dos capitulos. **Nao** inclua numeros de pagina no Indice, pois eles serao gerados dinamicamente no PDF.\n6.  **Tom:** Adote um tom corporativo, convincente e refinado, conforme a personalidade definida.\n\n**Regras de exclusao (nao incluir no texto):**\n*   A frase: \"Gerado pelo seu agente de ebooks.\"\n*   Comentarios sobre o conteudo do texto principal.\n*   Comentarios iniciais antes de comecar o conteudo.\n*   Secoes de credito, autor, agradecimentos ou qualquer mensagem sobre geracao automatica.\n*   Linhas dedicadas a numero de pagina ou notas internas.\n\n**Conteudo para elaboracao:**\nConteudo principal:\n"

/-- Literal chunk of `content_prompt_template` between `{text_content}` and
`{references}`. -/
def cptD : String :=
  "\n\nReferencias adicionais:\n"

/-- Model of `content_prompt_template.format(...)`: the draft-stage prompt. -/
def content_prompt_template
    (personality analysis_summary text_content references : String) : String :=
  cptA ++ personality ++ cptB ++ analysis_summary ++ cptC ++ text_content ++ cptD ++ references

/-- Literal chunk of the analysis f-string before `{text_content}`. -/
def apA : String :=
  "\nVoce e um analista editorial especializado em ebooks. Leia o material abaixo e produza um resumo estruturado contendo:\n- Principais temas, personagens, dados ou argumentos essenciais.\n- Referencias cruzadas importantes vindas dos anexos (quando existirem).\n- Sugestao de estrutura para o ebook (introducao, capitulos e conclusao).\n- Vocabulario-chave, tom desejado e alertas do que **nao** deve ser alterado.\n\nResponda em no maximo 250 palavras, usando Markdown com secoes claras.\n\n**Conteudo principal:**\n"

/-- Literal chunk of the analysis f-string between `{text_content}` and
`{reference_text}`. -/
def apB : String :=
  "\n\n**Referencias adicionais:**\n"

/-- Model of `analysis_prompt`: an f-string whose interpolated value is
stripped as a whole (`f"""..."""​.strip()`). -/
def analysis_prompt (text_content reference_text : String) : String :=
  strTrim (apA ++ text_content ++ apB ++ reference_text ++ "\n")

/-- Literal chunk of `edit_prompt` before `{raw_markdown}`. -/
def epA : String :=
  "Você é um editor sênior de publicações profissionais com a personalidade e habilidades definidas pelo usuário.\nSua tarefa é revisar o rascunho a seguir para garantir a máxima qualidade e fidelidade ao material original.\n\n**Rascunho Recebido:**\n"

/-- Literal chunk of `edit_prompt` after `{raw_markdown}`. -/
def epB : String :=
  "\n\n**DIRETRIZES DE EDIÇÃO:**\n1.  **Clareza e Coerência:** Eleve a clareza, a fluidez e a coerência, preservando o significado original.\n2.  **Correção:** Corrija erros de gramática, ortografia, pontuação e estilo.\n3.  **Formato:** Ajuste o Markdown para manter cabeçalhos consistentes, parágrafos equilibrados e listas claras. Mantenha as tags `<div class=\"page-break\"></div>` onde estiverem.\n4.  **Limpeza:** Elimine qualquer referência a autores, fontes, ferramentas ou processos de geração.\n5.  **Resultado Final:** O resultado deve ser o texto final em Markdown otimizado para conversão em PDF especificamente para o formato de ebook, pronto para ser convertido em PDF com layouts bonitos e profissionais."

/-- Model of `edit_prompt.format(raw_markdown=...)`.  The OpenAI branch
performs the same substitution in two `format` steps (first re-inserting the
literal `{raw_markdown}` placeholder, then filling it), with this same
result. -/
def edit_prompt (raw_markdown : String) : String :=
  epA ++ raw_markdown ++ epB

/-! ## The request, the external-world oracles, and the effect trace -/

/-- The multipart form fields of `generate_ebook`, before any stripping
(FastAPI's defaults make every text field default to `""`, `personality` to
`"neutra"`, and `files` to no uploads, which the empty list models). -/
structure Request where
  text_content : String
  personality : String
  google_api_key : String
  openai_api_key : String
  output_path : String
  google_model : String
  google_edit_model : String
  openai_model : String
  files : List UploadFile

/-- Outcomes of the external collaborators for one request.  `geminiCall n p`
is the result of the n-th `generate_content` call (argument `p` the prompt
sent); `openaiCall n sys usr` the `choices[0].message.content` of the n-th
`chat.completions.create` (the model name, timeout and temperature are the
fixed values from the source and are not varied here); `mdToHtml` the
`markdown.markdown(..., extensions=['extra'])` conversion; `renderPdf` the
`HTML(...).write_pdf(stylesheets=[css])` call with the fixed stylesheet,
yielding the PDF bytes or a raised error.  `mdToHtml` is typed total here
even though the source calls `markdown.markdown` outside any try/except, so
a raise from the conversion itself — an uncaught-exception path of the
program — is not represented in this model and no theorem below speaks
about it. -/
structure ExtCalls where
  geminiInitResult : Except String Unit
  openaiInitResult : Except String Unit
  geminiCall : Nat → String → Except String GenResponse
  openaiCall : Nat → String → String → Except String String
  mdToHtml : String → String
  renderPdf : String → Except String (List Nat)

/-- The externally visible side effects of one request: directories created
(`output_pdf.parent.mkdir`), which provider client was constructed, the
prompts sent to each provider, the renderer invocations, and the files the
handler writes to disk — the source never writes the rendered PDF (or any
file) to the resolved output path, so nothing ever appends to
`fileWrites`. -/
structure Trace where
  mkdirs : List (List String)
  geminiInitTried : Bool
  openaiInitTried : Bool
  geminiPrompts : List String
  openaiPrompts : List String
  renderCalls : List String
  fileWrites : List (List String)

/-- Outcome of the three-stage pipeline body: a structured stage failure
(reported with HTTP 500) or the final markdown. -/
inductive StageOut where
  | failed (message : String)
  | done (final_markdown : String)

/-- The handler's response: a structured JSON error with its status code, a
streamed PDF attachment with its `filename=` header value, or an uncaught
exception escaping the handler. -/
inductive HandlerResult where
  | json (message : String) (status : Nat)
  | pdf (bytes : List Nat) (filename : String)
  | crash (exc : String)

/-- Model of `personality = (personality or "neutra").strip() or "neutra"`. -/
def cleanedPersonality (p : String) : String :=
  let p0 := strTrim (if p = "" then "neutra" else p)
  if p0 = "" then "neutra" else p0

/-- Model of `references = "\n".join(uploaded_text).strip()` followed by
`reference_text = references or "Nenhuma"`. -/
def referenceTextOf (uploaded_text : List String) : String :=
  let references := strTrim (joinWith "\n" uploaded_text)
  if references = "" then "Nenhuma" else references

/-! ## The three-stage pipeline and the request handler -/

/-- The Gemini branch of section "2. Geracao do Conteudo": analysis call on
`content_model`, draft call on `content_model`, edit call on `edit_model`
(the first and second argument of `geminiCall` number the call and carry the
prompt sent, which the returned list also records in order).  Each stage
catches its own exception and converts it to the labelled 500 message, and
an empty stripped result halts with the stage's empty-result message. -/
def gemini_pipeline (ext : ExtCalls)
    (personality text_content reference_text : String) :
    StageOut × List String :=
  let ap := analysis_prompt text_content reference_text
  match ext.geminiCall 0 ap with
  | .error e =>
    (.failed ("Falha ao analisar o conteudo antes da geracao (Gemini): " ++ e), [ap])
  | .ok r0 =>
    let analysis_summary := strTrim (response_text r0)
    if analysis_summary = "" then
      (.failed "O modelo Gemini nao retornou um resumo na etapa de analise.", [ap])
    else
      let gp := content_prompt_template personality analysis_summary text_content reference_text
      match ext.geminiCall 1 gp with
      | .error e =>
        (.failed ("Falha ao gerar o rascunho do ebook (Gemini): " ++ e), [ap, gp])
      | .ok r1 =>
        let raw_markdown := strTrim (response_text r1)
        if raw_markdown = "" then
          (.failed "O modelo Gemini nao retornou texto para o rascunho.", [ap, gp])
        else
          let ep := edit_prompt raw_markdown
          match ext.geminiCall 2 ep with
          | .error e =>
            (.failed ("Falha ao editar o rascunho do ebook (Gemini): " ++ e), [ap, gp, ep])
          | .ok r2 =>
            let final_markdown := strTrim (response_text r2)
            if final_markdown = "" then
              (.failed "O modelo Gemini nao retornou texto para a edicao final.", [ap, gp, ep])
            else (.done final_markdown, [ap, gp, ep])

/-- The OpenAI branch: a draft chat call whose system message is the filled
`content_prompt_template` (with the fixed placeholder summary) and an edit
chat call whose system message is the filled `edit_prompt`; each has a fixed
user turn.  `openaiCall n sys usr` yields `choices[0].message.content`; any
exception inside the `try` (the call itself or the attribute chain) is the
`.error` case. -/
def openai_pipeline (ext : ExtCalls)
    (personality text_content reference_text : String) :
    StageOut × List String :=
  let gp := content_prompt_template personality
    "Sintese direta realizada pelo modelo OpenAI." text_content reference_text
  match ext.openaiCall 0 gp "Produza o ebook completo seguindo fielmente as instrucoes acima." with
  | .error e =>
    (.failed ("Falha ao gerar o rascunho do ebook (OpenAI): " ++ e), [gp])
  | .ok c0 =>
    let raw_markdown := strTrim c0
    if raw_markdown = "" then
      (.failed "O modelo OpenAI nao retornou texto para o rascunho.", [gp])
    else
      let ep := edit_prompt raw_markdown
      match ext.openaiCall 1 ep "Por favor, revise o rascunho conforme as diretrizes." with
      | .error e =>
        (.failed ("Falha ao editar o rascunho do ebook (OpenAI): " ++ e), [gp, ep])
      | .ok c1 =>
        let final_markdown := strTrim c1
        if final_markdown = "" then
          (.failed "O modelo OpenAI nao retornou texto para a edicao final.", [gp, ep])
        else (.done final_markdown, [gp, ep])

/-- Sections "3. Conversao para PDF" and "5": markdown-to-HTML conversion,
the WeasyPrint call with the fixed stylesheet (caught on failure), and the
streamed attachment whose `filename=` is `output_pdf.name`.  The rendered
bytes are only streamed; no write to `output_pdf` (or any file) occurs, so
`fileWrites` is untouched. -/
def render_and_respond (ext : ExtCalls) (output_pdf : List String)
    (final_markdown : String) (tr : Trace) : HandlerResult × Trace :=
  match ext.renderPdf (ext.mdToHtml final_markdown) with
  | .error e =>
    (.json ("Falha ao gerar o PDF com WeasyPrint: " ++ e) 500,
     { tr with renderCalls := tr.renderCalls ++ [ext.mdToHtml final_markdown] })
  | .ok pdf_bytes =>
    (.pdf pdf_bytes (pathName output_pdf),
     { tr with renderCalls := tr.renderCalls ++ [ext.mdToHtml final_markdown] })

/-- Model of the whole `generate_ebook` handler.  `base` is `BASE_DIR`,
`expand` the `Path.expanduser` outcome for `~`-prefixed overrides (see
`resolve_output_pdf`), `default_google_model` the startup
`DEFAULT_GOOGLE_MODEL`.  The steps in source order: strip the form fields,
resolve `output_pdf` and create its parent directory, validate the text and
the credentials, extract the upload texts (an extraction exception escapes
the handler uncaught: the `.crash` case), build the reference text and
model names, construct exactly one provider client by key precedence, run
that provider's pipeline, and render.  Two caveats on scope: in the source
the pre-validation `expanduser` and `mkdir` calls can themselves raise
uncaught (for instance an unknown `~user`, or a parent path crossing an
existing non-directory such as `/dev/null/a.pdf`), and so can the
`markdown.markdown` conversion, which sits outside the try around the
renderer; the model treats all three as total (the mkdir recorded as a
trace effect), so those uncaught paths are not represented and no theorem
below speaks about them.  The `if files:` guard of the source is the
identity here because extracting no files yields `[]`. -/
def run (base : List String) (expand : String → List String) (default_google_model : String)
    (req : Request) (ext : ExtCalls) : HandlerResult × Trace :=
  let text_content := strTrim req.text_content
  let personality := cleanedPersonality req.personality
  let google_api_key := strTrim req.google_api_key
  let openai_api_key := strTrim req.openai_api_key
  let output_path_raw := strTrim req.output_path
  let google_model_value := strTrim req.google_model
  let google_edit_model_value := strTrim req.google_edit_model
  let output_pdf := resolved_output base expand output_path_raw
  let tr0 : Trace :=
    { mkdirs := [output_pdf.dropLast], geminiInitTried := false, openaiInitTried := false,
      geminiPrompts := [], openaiPrompts := [], renderCalls := [], fileWrites := [] }
  if text_content = "" then
    (.json "Conteudo de texto e obrigatorio." 400, tr0)
  else if google_api_key = "" ∧ openai_api_key = "" then
    (.json "Pelo menos uma chave de API (Google Gemini ou OpenAI) e obrigatoria." 400, tr0)
  else
    match extract_text_from_uploads req.files with
    | .error e => (.crash e, tr0)
    | .ok uploaded_text =>
      let reference_text := referenceTextOf uploaded_text
      let google_model_name :=
        if google_model_value = "" then default_google_model else google_model_value
      let google_edit_model_name :=
        if google_edit_model_value = "" then google_model_name else google_edit_model_value
      if google_api_key ≠ "" then
        match ext.geminiInitResult with
        | .error e =>
          (.json ("Falha ao inicializar os modelos Gemini (" ++ google_model_name ++ "/" ++
              google_edit_model_name ++ "): " ++ e) 400,
           { tr0 with geminiInitTried := true })
        | .ok _ =>
          let tr1 := { tr0 with geminiInitTried := true }
          match gemini_pipeline ext personality text_content reference_text with
          | (.failed m, prompts) => (.json m 500, { tr1 with geminiPrompts := prompts })
          | (.done fm, prompts) =>
            render_and_respond ext output_pdf fm { tr1 with geminiPrompts := prompts }
      else if openai_api_key ≠ "" then
        match ext.openaiInitResult with
        | .error e =>
          (.json ("Falha ao inicializar o cliente OpenAI: " ++ e) 400,
           { tr0 with openaiInitTried := true })
        | .ok _ =>
          let tr1 := { tr0 with openaiInitTried := true }
          match openai_pipeline ext personality text_content reference_text with
          | (.failed m, prompts) => (.json m 500, { tr1 with openaiPrompts := prompts })
          | (.done fm, prompts) =>
            render_and_respond ext output_pdf fm { tr1 with openaiPrompts := prompts }
      else
        (.json "Erro interno: Nenhuma chave de API v??lida foi processada." 500, tr0)

/-! ## Shared helper lemmas about the handler -/

theorem render_and_respond_trace (xo : ExtCalls) (o : List String) (f : String) (t : Trace) :
    (render_and_respond xo o f t).2 =
      { t with renderCalls := t.renderCalls ++ [xo.mdToHtml f] } := by
  unfold render_and_respond
  cases xo.renderPdf (xo.mdToHtml f) <;> rfl

theorem render_and_respond_no_crash (xo : ExtCalls) (o : List String) (f : String)
    (t : Trace) (e : String) :
    (render_and_respond xo o f t).1 ≠ HandlerResult.crash e := by
  unfold render_and_respond
  cases xo.renderPdf (xo.mdToHtml f) <;> simp

/-! ## Claim theorems -/

/-- C1 counterexample: with base directory `/srv/app`, the non-empty relative
override `../escape.pdf` resolves to `/srv/escape.pdf`, and the equally
relative, `..`-free override `~/escape.pdf` is sent by `expanduser` to the
home directory, here `/home/usuario/escape.pdf`; neither lies within the
base directory — the resolution of `generate_ebook` is not
path-traversal-safe as claimed. -/
theorem c1_relative_override_escapes_base :
    leadsWith ["srv", "app"]
      (resolve_output_pdf ["srv", "app"] (fun _ => []) "../escape.pdf") = false ∧
    leadsWith ["srv", "app"]
      (resolve_output_pdf ["srv", "app"]
        (fun _ => ["home", "usuario", "escape.pdf"]) "~/escape.pdf") = false := by
  constructor <;> decide

/-- C1 (amended): the handler resolves a non-empty relative override by
expanding a leading `~` and joining the remaining relative overrides onto
the fixed base directory, normalising parent segments, with no containment
check; the resolved output path is guaranteed to lie within the base
directory only when the override neither begins with `~` (which
`expanduser` redirects to a home directory outside the base) nor contains
parent-directory (`..`) segments — both escapes appear in the
counterexample. -/
theorem c1_relative_override_without_parent_segments_stays_within
    (base : List String) (expand : String → List String) (raw : String)
    (hbase : ∀ c ∈ base, c ≠ "..")
    (hraw : raw ≠ "")
    (hnotHome : firstCharIs raw '~' = false)
    (hnotAbs : firstCharIs raw '/' = false)
    (hsegs : ∀ s ∈ splitSegs raw, s ≠ "..") :
    leadsWith base (resolve_output_pdf base expand raw) = true := by
  unfold resolve_output_pdf
  rw [hnotHome, hnotAbs]
  simp only [Bool.false_eq_true, if_false]
  have hall : ∀ c ∈ base ++ splitSegs raw, c ≠ ".." := by
    intro c hc
    rcases List.mem_append.mp hc with h | h
    · exact hbase c h
    · exact hsegs c h
  rw [resolveComps_no_up (base ++ splitSegs raw) [] hall]
  simpa using leadsWith_append base (splitSegs raw)

/-- C1 witness: a concrete traversal-free relative override resolves inside
the base directory. -/
theorem c1_witness :
    leadsWith ["srv", "app"]
      (resolve_output_pdf ["srv", "app"] (fun _ => []) "livros/meu_ebook.pdf") = true :=
  c1_relative_override_without_parent_segments_stays_within
    ["srv", "app"] (fun _ => []) "livros/meu_ebook.pdf"
    (by decide) (by decide) (by decide) (by decide) (by decide)

/-- C3 counterexample: the persona label `"zqxv"` does not occur in the
analysis prompt built from main text `"ola"` (reference text `"Nenhuma"`),
nor in the edit prompt built from draft `"rascunho"` — only the draft-stage
template interpolates the persona, so the claim that every prompt stage
contains it fails. -/
theorem c3_persona_absent_from_analysis_and_edit_prompts :
    strOccurs "zqxv" (analysis_prompt "ola" "Nenhuma") = false ∧
    strOccurs "zqxv" (edit_prompt "rascunho") = false := by
  constructor <;> decide

/-- C3 (amended): the persona label is interpolated, unmodified, into the
draft-stage prompt (`content_prompt_template`, used by both provider
branches); the analysis and edit prompts do not receive it — they mention a
user-defined personality only as fixed template text. -/
theorem c3_persona_in_draft_prompt
    (personality analysis_summary text_content references : String) :
    strOccurs personality
      (content_prompt_template personality analysis_summary text_content references) = true := by
  unfold content_prompt_template strOccurs
  simp only [string_data_append, List.append_assoc]
  exact occursIn_append_right _ (occursIn_append_left _ _)

/-- C5: response-text extraction is defensive.  When the top-level text
field is absent or blank, `_response_text` returns exactly the concatenation
of all textual parts across all candidate outputs in the order provided (the
spec-side `spec_candidate_concat`); when that concatenation is empty the
result is the empty string and the analysis stage of the pipeline treats it
as a stage failure. -/
theorem c5_response_extraction_defensive (r : GenResponse)
    (h : top_text_blank r = true) :
    response_text r = spec_candidate_concat r ∧
    (spec_candidate_concat r = "" →
      response_text r = "" ∧
      ∀ (ext : ExtCalls) (p t ref : String),
        ext.geminiCall 0 (analysis_prompt t ref) = Except.ok r →
        (gemini_pipeline ext p t ref).1 =
          StageOut.failed "O modelo Gemini nao retornou um resumo na etapa de analise.") := by
  have h1 : response_text r = response_text_from_candidates r := by
    unfold response_text
    cases ht : r.text with
    | none => rfl
    | some t =>
      unfold top_text_blank at h
      rw [ht] at h
      simp only [beq_iff_eq] at h
      simp [h]
  have h2 : response_text r = spec_candidate_concat r :=
    h1.trans (response_text_from_candidates_eq_spec r)
  refine ⟨h2, fun h0 => ⟨h2.trans h0, ?_⟩⟩
  intro ext p t ref hc
  have hempty : strTrim (response_text r) = "" := by
    rw [h2, h0]; rfl
  simp [gemini_pipeline, hc, hempty]

/-- C5 witness response: blank top-level text, one candidate with two
textual parts. -/
def c5_sample_response : GenResponse :=
  { text := some "  ",
    candidates := some
      [{ content := some { parts := some [{ text := some "Cap" }, { text := some "itulo" }] } }] }

/-- C5 witness: the defensive fallback concatenates the candidate parts of
the sample response. -/
theorem c5_witness : response_text c5_sample_response = "Capitulo" :=
  ((c5_response_extraction_defensive c5_sample_response (by rfl)).1).trans (by rfl)

/-- C8: the extractor returns, in order, each non-empty upload's fragments:
a `.pdf` upload contributes its truthy page texts as separate fragments in
page order, a `.txt` upload its decoded text, empty-body uploads contribute
nothing, and unsupported extensions are silently skipped — with no error,
provided no page-document reader raises (the hypothesis). -/
theorem c8_extractor_ordered_fragments (files : List UploadFile)
    (h : ∀ f ∈ files, f.isEmpty = false →
      strEndsWith (strLower f.filename) ".pdf" = true →
      ∃ pages, f.pdfPages = Except.ok pages) :
    extract_text_from_uploads files = Except.ok (files.flatMap upload_fragments) := by
  induction files with
  | nil => rfl
  | cons f rest ih =>
    have hrest : ∀ g ∈ rest, g.isEmpty = false →
        strEndsWith (strLower g.filename) ".pdf" = true →
        ∃ pages, g.pdfPages = Except.ok pages :=
      fun g hg => h g (List.mem_cons_of_mem f hg)
    have hih := ih hrest
    by_cases he : f.isEmpty = true
    · simp [extract_text_from_uploads, upload_fragments, he, hih]
    · have he' : f.isEmpty = false := by
        cases hb : f.isEmpty
        · rfl
        · exact absurd hb he
      by_cases hp : strEndsWith (strLower f.filename) ".pdf" = true
      · obtain ⟨pages, hpg⟩ := h f (List.mem_cons_self f rest) he' hp
        simp [extract_text_from_uploads, upload_fragments, he', hp, hpg, hih]
      · have hp' : strEndsWith (strLower f.filename) ".pdf" = false := by
          cases hb : strEndsWith (strLower f.filename) ".pdf"
          · rfl
          · exact absurd hb hp
        by_cases ht : strEndsWith (strLower f.filename) ".txt" = true
        · simp [extract_text_from_uploads, upload_fragments, he', hp', ht, hih]
        · have ht' : strEndsWith (strLower f.filename) ".txt" = false := by
            cases hb : strEndsWith (strLower f.filename) ".txt"
            · rfl
            · exact absurd hb ht
          simp [extract_text_from_uploads, upload_fragments, he', hp', ht', hih]

/-- C8 witness upload: a five-page document with extractable text only on
pages 2 and 5. -/
def c8_sample_pdf : UploadFile :=
  { filename := "referencia.pdf", isEmpty := false,
    pdfPages := Except.ok
      [none, some "Texto da pagina dois.", some "", none, some "Texto da pagina cinco."],
    txtDecoded := "" }

/-- C8 witness: exactly the two truthy page texts come back, in page
order. -/
theorem c8_witness :
    extract_text_from_uploads [c8_sample_pdf] =
      Except.ok ["Texto da pagina dois.", "Texto da pagina cinco."] :=
  (c8_extractor_ordered_fragments [c8_sample_pdf]
    (by
      intro f hf h1 h2
      simp only [List.mem_singleton] at hf
      subst hf
      exact ⟨_, rfl⟩)).trans (by rfl)

/-- A request with every form field at its FastAPI default (all text fields
empty, no uploads), used to instantiate hypotheses at concrete inputs. -/
def plain_request : Request :=
  { text_content := "", personality := "", google_api_key := "", openai_api_key := "",
    output_path := "", google_model := "", google_edit_model := "", openai_model := "",
    files := [] }

/-- A concrete external world whose calls all fail benignly, used to
instantiate hypotheses at concrete inputs. -/
def trivialExt : ExtCalls :=
  { geminiInitResult := .ok (), openaiInitResult := .ok (),
    geminiCall := fun _ _ => .error "indisponivel",
    openaiCall := fun _ _ _ => .error "indisponivel",
    mdToHtml := fun s => s,
    renderPdf := fun _ => .error "indisponivel" }

/-- C7: a request whose main text strips to empty is rejected with the 400
validation error, and the trace shows no provider-client construction, no
provider prompt, and no renderer call. -/
theorem c7_empty_text_no_provider_activity
    (base : List String) (expand : String → List String) (dgm : String) (req : Request) (ext : ExtCalls)
    (h : strTrim req.text_content = "") :
    run base expand dgm req ext =
      (HandlerResult.json "Conteudo de texto e obrigatorio." 400,
       { mkdirs := [(resolved_output base expand (strTrim req.output_path)).dropLast],
         geminiInitTried := false, openaiInitTried := false,
         geminiPrompts := [], openaiPrompts := [], renderCalls := [],
         fileWrites := [] }) := by
  simp [run, h]

/-- C7 witness: the default request is rejected with 400 and an all-empty
activity trace. -/
theorem c7_witness :
    run ["srv", "app"] (fun _ => []) "gemini-2.5-pro" plain_request trivialExt =
      (HandlerResult.json "Conteudo de texto e obrigatorio." 400,
       { mkdirs := [["srv", "app"]],
         geminiInitTried := false, openaiInitTried := false,
         geminiPrompts := [], openaiPrompts := [], renderCalls := [],
         fileWrites := [] }) :=
  (c7_empty_text_no_provider_activity ["srv", "app"] (fun _ => []) "gemini-2.5-pro"
    plain_request trivialExt (by rfl)).trans (by rfl)

/-- Master case walk over every branch of `run`: the mkdir of the resolved
output's parent is recorded on every path, no path ever writes a file, and
the only way the handler ends in an uncaught exception in this model is the
upload extraction raising that very exception (the source's further
uncaught paths — pre-validation `expanduser`/`mkdir` raises and a raise
from the markdown conversion — are outside the model, as documented at
`run` and `ExtCalls`). -/
theorem run_cases (base : List String) (expand : String → List String) (dgm : String)
    (req : Request) (ext : ExtCalls) :
    (run base expand dgm req ext).2.mkdirs =
      [(resolved_output base expand (strTrim req.output_path)).dropLast] ∧
    (run base expand dgm req ext).2.fileWrites = [] ∧
    (∀ e, (run base expand dgm req ext).1 = HandlerResult.crash e →
      extract_text_from_uploads req.files = Except.error e) := by
  simp only [run]
  by_cases h1 : strTrim req.text_content = ""
  · rw [if_pos h1]
    exact ⟨rfl, rfl, fun e h => HandlerResult.noConfusion h⟩
  · rw [if_neg h1]
    by_cases h2 : strTrim req.google_api_key = "" ∧ strTrim req.openai_api_key = ""
    · rw [if_pos h2]
      exact ⟨rfl, rfl, fun e h => HandlerResult.noConfusion h⟩
    · rw [if_neg h2]
      split
      · refine ⟨rfl, rfl, ?_⟩
        intro e h
        cases h
        assumption
      · by_cases h3 : strTrim req.google_api_key ≠ ""
        · rw [if_pos h3]
          split
          · exact ⟨rfl, rfl, fun e h => HandlerResult.noConfusion h⟩
          · split
            · exact ⟨rfl, rfl, fun e h => HandlerResult.noConfusion h⟩
            · refine ⟨?_, ?_, ?_⟩
              · rw [render_and_respond_trace]
              · rw [render_and_respond_trace]
              · exact fun e h => absurd h (render_and_respond_no_crash ext _ _ _ e)
        · rw [if_neg h3]
          by_cases h4 : strTrim req.openai_api_key ≠ ""
          · rw [if_pos h4]
            split
            · exact ⟨rfl, rfl, fun e h => HandlerResult.noConfusion h⟩
            · split
              · exact ⟨rfl, rfl, fun e h => HandlerResult.noConfusion h⟩
              · refine ⟨?_, ?_, ?_⟩
                · rw [render_and_respond_trace]
                · rw [render_and_respond_trace]
                · exact fun e h => absurd h (render_and_respond_no_crash ext _ _ _ e)
          · rw [if_neg h4]
            exact ⟨rfl, rfl, fun e h => HandlerResult.noConfusion h⟩

/-- C10: on every request — including ones later rejected by validation —
the handler resolves the output path and creates its parent directory; the
trace records that directory creation unconditionally, and in particular it
is present when the request fails the empty-text validation. -/
theorem c10_mkdir_precedes_validation
    (base : List String) (expand : String → List String) (dgm : String) (req : Request) (ext : ExtCalls) :
    (run base expand dgm req ext).2.mkdirs =
      [(resolved_output base expand (strTrim req.output_path)).dropLast] ∧
    (strTrim req.text_content = "" →
      (run base expand dgm req ext).1 =
        HandlerResult.json "Conteudo de texto e obrigatorio." 400) := by
  constructor
  · exact (run_cases base expand dgm req ext).1
  · intro h
    simp [run, h]

/-- A malformed page-document upload: the reader raises on it. -/
def c2_bad_pdf : UploadFile :=
  { filename := "quebrado.pdf", isEmpty := false,
    pdfPages := Except.error "EmptyFileError: Cannot read an empty file",
    txtDecoded := "" }

/-- An otherwise valid request carrying the malformed upload. -/
def c2_request : Request :=
  { text_content := "Historia da empresa", personality := "neutra",
    google_api_key := "chave-google", openai_api_key := "", output_path := "",
    google_model := "", google_edit_model := "", openai_model := "",
    files := [c2_bad_pdf] }

/-- C2 counterexample: a request with valid text and credential whose upload
makes the page-document reader raise ends in an uncaught exception escaping
the handler — not in a structured JSON error — because the extraction call
site has no exception handling. -/
theorem c2_pdf_exception_escapes_handler :
    (run ["srv", "app"] (fun _ => []) "gemini-2.5-pro" c2_request trivialExt).1 =
      HandlerResult.crash "EmptyFileError: Cannot read an empty file" := by rfl

/-- C2 (amended): not every external-call failure is caught.  An exception
raised while extracting text from an uploaded page-document propagates out
of the handler as an unstructured crash (see the counterexample), and in
the source the pre-validation path operations (`expanduser`, the parent
`mkdir`) and the markdown-to-HTML conversion also sit outside any
try/except.  Every provider failure, however — client construction and
every generation call, at each stage of either branch — and every renderer
failure (the render block is shared by both branches) is caught at its call
site and converted into the structured JSON error labelled for that site.
The conjuncts cover, in order: the three Gemini call sites and the two
OpenAI call sites each turning a raised error into their labelled stage
failure; a pipeline stage failure becoming the 500 response on each branch;
the two client-construction failures becoming 400 responses; and a renderer
failure becoming its 500 response. -/
theorem c2_external_failures_converted_to_labeled_errors :
    (∀ (ext : ExtCalls) (p t r e : String),
       ext.geminiCall 0 (analysis_prompt t r) = Except.error e →
       gemini_pipeline ext p t r =
         (StageOut.failed ("Falha ao analisar o conteudo antes da geracao (Gemini): " ++ e),
          [analysis_prompt t r])) ∧
    (∀ (ext : ExtCalls) (p t r : String) (r0 : GenResponse) (e : String),
       ext.geminiCall 0 (analysis_prompt t r) = Except.ok r0 →
       strTrim (response_text r0) ≠ "" →
       ext.geminiCall 1 (content_prompt_template p (strTrim (response_text r0)) t r) =
         Except.error e →
       gemini_pipeline ext p t r =
         (StageOut.failed ("Falha ao gerar o rascunho do ebook (Gemini): " ++ e),
          [analysis_prompt t r,
           content_prompt_template p (strTrim (response_text r0)) t r])) ∧
    (∀ (ext : ExtCalls) (p t r : String) (r0 r1 : GenResponse) (e : String),
       ext.geminiCall 0 (analysis_prompt t r) = Except.ok r0 →
       strTrim (response_text r0) ≠ "" →
       ext.geminiCall 1 (content_prompt_template p (strTrim (response_text r0)) t r) =
         Except.ok r1 →
       strTrim (response_text r1) ≠ "" →
       ext.geminiCall 2 (edit_prompt (strTrim (response_text r1))) = Except.error e →
       gemini_pipeline ext p t r =
         (StageOut.failed ("Falha ao editar o rascunho do ebook (Gemini): " ++ e),
          [analysis_prompt t r,
           content_prompt_template p (strTrim (response_text r0)) t r,
           edit_prompt (strTrim (response_text r1))])) ∧
    (∀ (ext : ExtCalls) (p t r e : String),
       ext.openaiCall 0 (content_prompt_template p
           "Sintese direta realizada pelo modelo OpenAI." t r)
         "Produza o ebook completo seguindo fielmente as instrucoes acima." =
         Except.error e →
       openai_pipeline ext p t r =
         (StageOut.failed ("Falha ao gerar o rascunho do ebook (OpenAI): " ++ e),
          [content_prompt_template p "Sintese direta realizada pelo modelo OpenAI." t r])) ∧
    (∀ (ext : ExtCalls) (p t r c0 e : String),
       ext.openaiCall 0 (content_prompt_template p
           "Sintese direta realizada pelo modelo OpenAI." t r)
         "Produza o ebook completo seguindo fielmente as instrucoes acima." =
         Except.ok c0 →
       strTrim c0 ≠ "" →
       ext.openaiCall 1 (edit_prompt (strTrim c0))
         "Por favor, revise o rascunho conforme as diretrizes." = Except.error e →
       openai_pipeline ext p t r =
         (StageOut.failed ("Falha ao editar o rascunho do ebook (OpenAI): " ++ e),
          [content_prompt_template p "Sintese direta realizada pelo modelo OpenAI." t r,
           edit_prompt (strTrim c0)])) ∧
    (∀ (base : List String) (expand : String → List String) (dgm : String)
       (req : Request) (ext : ExtCalls) (ts : List String) (m : String)
       (ps : List String),
       strTrim req.text_content ≠ "" →
       strTrim req.google_api_key ≠ "" →
       extract_text_from_uploads req.files = Except.ok ts →
       ext.geminiInitResult = Except.ok () →
       gemini_pipeline ext (cleanedPersonality req.personality)
           (strTrim req.text_content) (referenceTextOf ts) = (StageOut.failed m, ps) →
       run base expand dgm req ext =
         (HandlerResult.json m 500,
          { mkdirs := [(resolved_output base expand (strTrim req.output_path)).dropLast],
            geminiInitTried := true, openaiInitTried := false,
            geminiPrompts := ps, openaiPrompts := [], renderCalls := [],
            fileWrites := [] })) ∧
    (∀ (base : List String) (expand : String → List String) (dgm : String)
       (req : Request) (ext : ExtCalls) (ts : List String) (m : String)
       (ps : List String),
       strTrim req.text_content ≠ "" →
       strTrim req.google_api_key = "" →
       strTrim req.openai_api_key ≠ "" →
       extract_text_from_uploads req.files = Except.ok ts →
       ext.openaiInitResult = Except.ok () →
       openai_pipeline ext (cleanedPersonality req.personality)
           (strTrim req.text_content) (referenceTextOf ts) = (StageOut.failed m, ps) →
       run base expand dgm req ext =
         (HandlerResult.json m 500,
          { mkdirs := [(resolved_output base expand (strTrim req.output_path)).dropLast],
            geminiInitTried := false, openaiInitTried := true,
            geminiPrompts := [], openaiPrompts := ps, renderCalls := [],
            fileWrites := [] })) ∧
    (∀ (base : List String) (expand : String → List String) (dgm : String)
       (req : Request) (ext : ExtCalls) (ts : List String) (e : String),
       strTrim req.text_content ≠ "" →
       strTrim req.google_api_key ≠ "" →
       extract_text_from_uploads req.files = Except.ok ts →
       ext.geminiInitResult = Except.error e →
       run base expand dgm req ext =
         (HandlerResult.json ("Falha ao inicializar os modelos Gemini (" ++
             (if strTrim req.google_model = "" then dgm else strTrim req.google_model) ++
             "/" ++
             (if strTrim req.google_edit_model = "" then
               (if strTrim req.google_model = "" then dgm else strTrim req.google_model)
              else strTrim req.google_edit_model) ++ "): " ++ e) 400,
          { mkdirs := [(resolved_output base expand (strTrim req.output_path)).dropLast],
            geminiInitTried := true, openaiInitTried := false,
            geminiPrompts := [], openaiPrompts := [], renderCalls := [],
            fileWrites := [] })) ∧
    (∀ (base : List String) (expand : String → List String) (dgm : String)
       (req : Request) (ext : ExtCalls) (ts : List String) (e : String),
       strTrim req.text_content ≠ "" →
       strTrim req.google_api_key = "" →
       strTrim req.openai_api_key ≠ "" →
       extract_text_from_uploads req.files = Except.ok ts →
       ext.openaiInitResult = Except.error e →
       run base expand dgm req ext =
         (HandlerResult.json ("Falha ao inicializar o cliente OpenAI: " ++ e) 400,
          { mkdirs := [(resolved_output base expand (strTrim req.output_path)).dropLast],
            geminiInitTried := false, openaiInitTried := true,
            geminiPrompts := [], openaiPrompts := [], renderCalls := [],
            fileWrites := [] })) ∧
    (∀ (base : List String) (expand : String → List String) (dgm : String)
       (req : Request) (ext : ExtCalls) (ts : List String) (fm : String)
       (ps : List String) (e : String),
       strTrim req.text_content ≠ "" →
       strTrim req.google_api_key ≠ "" →
       extract_text_from_uploads req.files = Except.ok ts →
       ext.geminiInitResult = Except.ok () →
       gemini_pipeline ext (cleanedPersonality req.personality)
           (strTrim req.text_content) (referenceTextOf ts) = (StageOut.done fm, ps) →
       ext.renderPdf (ext.mdToHtml fm) = Except.error e →
       run base expand dgm req ext =
         (HandlerResult.json ("Falha ao gerar o PDF com WeasyPrint: " ++ e) 500,
          { mkdirs := [(resolved_output base expand (strTrim req.output_path)).dropLast],
            geminiInitTried := true, openaiInitTried := false,
            geminiPrompts := ps, openaiPrompts := [],
            renderCalls := [ext.mdToHtml fm], fileWrites := [] })) := by
  refine ⟨?_, ?_, ?_, ?_, ?_, ?_, ?_, ?_, ?_, ?_⟩
  · intro ext p t r e hc
    simp [gemini_pipeline, hc]
  · intro ext p t r r0 e hc0 h5 hc1
    simp [gemini_pipeline, hc0, h5, hc1]
  · intro ext p t r r0 r1 e hc0 h5 hc1 h6 hc2
    simp [gemini_pipeline, hc0, h5, hc1, h6, hc2]
  · intro ext p t r e hc
    simp [openai_pipeline, hc]
  · intro ext p t r c0 e hc0 h5 hc1
    simp [openai_pipeline, hc0, h5, hc1]
  · intro base expand dgm req ext ts m ps htext hg hex hinit hpipe
    simp [run, htext, hg, hex, hinit, hpipe]
  · intro base expand dgm req ext ts m ps htext hg0 ho hex hinit hpipe
    simp [run, htext, hg0, ho, hex, hinit, hpipe]
  · intro base expand dgm req ext ts e htext hg hex hinit
    simp [run, htext, hg, hex, hinit]
  · intro base expand dgm req ext ts e htext hg0 ho hex hinit
    simp [run, htext, hg0, ho, hex, hinit]
  · intro base expand dgm req ext ts fm ps e htext hg hex hinit hpipe hrender
    simp [run, htext, hg, hex, hinit, hpipe, render_and_respond, hrender]

/-- C2 witness: the analysis call raising in the benign failing world is
converted into its labelled stage failure. -/
theorem c2_witness :
    gemini_pipeline trivialExt "formal" "ola" "Nenhuma" =
      (StageOut.failed "Falha ao analisar o conteudo antes da geracao (Gemini): indisponivel",
       [analysis_prompt "ola" "Nenhuma"]) :=
  (c2_external_failures_converted_to_labeled_errors.1 trivialExt "formal" "ola"
    "Nenhuma" "indisponivel" rfl).trans (by rfl)

/-- Helper: on a validation-passing request with the Google credential
present, the trace marks the Gemini client constructed and the OpenAI client
untouched, whatever the later stages do. -/
theorem run_trace_gemini_selected
    (base : List String) (expand : String → List String) (dgm : String) (req : Request) (ext : ExtCalls)
    (ts : List String)
    (htext : strTrim req.text_content ≠ "")
    (hg : strTrim req.google_api_key ≠ "")
    (hex : extract_text_from_uploads req.files = Except.ok ts) :
    ∃ gp rc, (run base expand dgm req ext).2 =
      { mkdirs := [(resolved_output base expand (strTrim req.output_path)).dropLast],
        geminiInitTried := true, openaiInitTried := false,
        geminiPrompts := gp, openaiPrompts := [], renderCalls := rc,
        fileWrites := [] } := by
  simp only [run]
  rw [if_neg htext]
  rw [if_neg (show ¬(strTrim req.google_api_key = "" ∧ strTrim req.openai_api_key = "")
    from fun hand => hg hand.1)]
  split
  · rename_i e heq
    rw [hex] at heq
    exact Except.noConfusion heq
  · rw [if_pos hg]
    split
    · exact ⟨[], [], rfl⟩
    · split
      · exact ⟨_, [], rfl⟩
      · rw [render_and_respond_trace]
        exact ⟨_, _, rfl⟩

/-- Helper: on a validation-passing request with no Google credential but an
OpenAI credential, the trace marks the OpenAI client constructed and the
Gemini client untouched. -/
theorem run_trace_openai_selected
    (base : List String) (expand : String → List String) (dgm : String) (req : Request) (ext : ExtCalls)
    (ts : List String)
    (htext : strTrim req.text_content ≠ "")
    (hg0 : strTrim req.google_api_key = "")
    (ho : strTrim req.openai_api_key ≠ "")
    (hex : extract_text_from_uploads req.files = Except.ok ts) :
    ∃ op rc, (run base expand dgm req ext).2 =
      { mkdirs := [(resolved_output base expand (strTrim req.output_path)).dropLast],
        geminiInitTried := false, openaiInitTried := true,
        geminiPrompts := [], openaiPrompts := op, renderCalls := rc,
        fileWrites := [] } := by
  simp only [run]
  rw [if_neg htext]
  rw [if_neg (show ¬(strTrim req.google_api_key = "" ∧ strTrim req.openai_api_key = "")
    from fun hand => ho hand.2)]
  split
  · rename_i e heq
    rw [hex] at heq
    exact Except.noConfusion heq
  · rw [if_neg (show ¬strTrim req.google_api_key ≠ "" from fun h => h hg0)]
    rw [if_pos ho]
    split
    · exact ⟨[], [], rfl⟩
    · split
      · exact ⟨_, [], rfl⟩
      · rw [render_and_respond_trace]
        exact ⟨_, _, rfl⟩

/-- C4: on every request that passes validation (non-empty text, at least
one credential, uploads extracting cleanly), exactly one provider client is
constructed, with fixed precedence: the Gemini client whenever the Google
credential is present — regardless of the OpenAI credential — and otherwise
the OpenAI client. -/
theorem c4_provider_selection_precedence
    (base : List String) (expand : String → List String) (dgm : String) (req : Request) (ext : ExtCalls)
    (ts : List String)
    (htext : strTrim req.text_content ≠ "")
    (hex : extract_text_from_uploads req.files = Except.ok ts) :
    (strTrim req.google_api_key ≠ "" →
      (run base expand dgm req ext).2.geminiInitTried = true ∧
      (run base expand dgm req ext).2.openaiInitTried = false) ∧
    (strTrim req.google_api_key = "" → strTrim req.openai_api_key ≠ "" →
      (run base expand dgm req ext).2.openaiInitTried = true ∧
      (run base expand dgm req ext).2.geminiInitTried = false) := by
  constructor
  · intro hg
    obtain ⟨gp, rc, htr⟩ := run_trace_gemini_selected base expand dgm req ext ts htext hg hex
    rw [htr]
    exact ⟨rfl, rfl⟩
  · intro hg0 ho
    obtain ⟨op, rc, htr⟩ := run_trace_openai_selected base expand dgm req ext ts htext hg0 ho hex
    rw [htr]
    exact ⟨rfl, rfl⟩

/-- A validation-passing request holding both credentials, to exercise the
precedence at a concrete input. -/
def c4_request : Request :=
  { text_content := "Historia da empresa", personality := "",
    google_api_key := "chave-google", openai_api_key := "chave-openai",
    output_path := "", google_model := "", google_edit_model := "",
    openai_model := "", files := [] }

/-- C4 witness: with both credentials supplied, the Gemini client is the one
constructed and the OpenAI client is untouched. -/
theorem c4_witness :
    (run ["srv", "app"] (fun _ => []) "gemini-2.5-pro" c4_request trivialExt).2.geminiInitTried = true ∧
    (run ["srv", "app"] (fun _ => []) "gemini-2.5-pro" c4_request trivialExt).2.openaiInitTried = false :=
  (c4_provider_selection_precedence ["srv", "app"] (fun _ => []) "gemini-2.5-pro" c4_request
    trivialExt [] (by decide) rfl).1 (by decide)

/-- C6: whenever the draft-stage provider call succeeds but yields empty
text — on either provider branch — the handler returns the 500 error
attributing the failure to the draft stage, sends no edit-stage prompt, and
never calls the renderer.  First conjunct: Gemini branch (the draft is call
number 1, after a successful non-empty analysis); second conjunct: OpenAI
branch (the draft is call number 0). -/
theorem c6_draft_stage_empty_halts :
    (∀ (base : List String) (expand : String → List String) (dgm : String) (req : Request) (ext : ExtCalls)
       (ts : List String) (r0 r1 : GenResponse),
       strTrim req.text_content ≠ "" →
       strTrim req.google_api_key ≠ "" →
       extract_text_from_uploads req.files = Except.ok ts →
       ext.geminiInitResult = Except.ok () →
       ext.geminiCall 0 (analysis_prompt (strTrim req.text_content) (referenceTextOf ts)) =
         Except.ok r0 →
       strTrim (response_text r0) ≠ "" →
       ext.geminiCall 1 (content_prompt_template (cleanedPersonality req.personality)
           (strTrim (response_text r0)) (strTrim req.text_content) (referenceTextOf ts)) =
         Except.ok r1 →
       strTrim (response_text r1) = "" →
       run base expand dgm req ext =
         (HandlerResult.json "O modelo Gemini nao retornou texto para o rascunho." 500,
          { mkdirs := [(resolved_output base expand (strTrim req.output_path)).dropLast],
            geminiInitTried := true, openaiInitTried := false,
            geminiPrompts :=
              [analysis_prompt (strTrim req.text_content) (referenceTextOf ts),
               content_prompt_template (cleanedPersonality req.personality)
                 (strTrim (response_text r0)) (strTrim req.text_content) (referenceTextOf ts)],
            openaiPrompts := [], renderCalls := [], fileWrites := [] })) ∧
    (∀ (base : List String) (expand : String → List String) (dgm : String) (req : Request) (ext : ExtCalls)
       (ts : List String) (c0 : String),
       strTrim req.text_content ≠ "" →
       strTrim req.google_api_key = "" →
       strTrim req.openai_api_key ≠ "" →
       extract_text_from_uploads req.files = Except.ok ts →
       ext.openaiInitResult = Except.ok () →
       ext.openaiCall 0 (content_prompt_template (cleanedPersonality req.personality)
           "Sintese direta realizada pelo modelo OpenAI." (strTrim req.text_content)
           (referenceTextOf ts))
         "Produza o ebook completo seguindo fielmente as instrucoes acima." =
         Except.ok c0 →
       strTrim c0 = "" →
       run base expand dgm req ext =
         (HandlerResult.json "O modelo OpenAI nao retornou texto para o rascunho." 500,
          { mkdirs := [(resolved_output base expand (strTrim req.output_path)).dropLast],
            geminiInitTried := false, openaiInitTried := true,
            geminiPrompts := [],
            openaiPrompts :=
              [content_prompt_template (cleanedPersonality req.personality)
                 "Sintese direta realizada pelo modelo OpenAI." (strTrim req.text_content)
                 (referenceTextOf ts)],
            renderCalls := [], fileWrites := [] })) := by
  constructor
  · intro base expand dgm req ext ts r0 r1 htext hg hex hinit hcall0 h5 hcall1 h7
    have hpipe : gemini_pipeline ext (cleanedPersonality req.personality)
        (strTrim req.text_content) (referenceTextOf ts) =
        (StageOut.failed "O modelo Gemini nao retornou texto para o rascunho.",
         [analysis_prompt (strTrim req.text_content) (referenceTextOf ts),
          content_prompt_template (cleanedPersonality req.personality)
            (strTrim (response_text r0)) (strTrim req.text_content) (referenceTextOf ts)]) := by
      simp [gemini_pipeline, hcall0, h5, hcall1, h7]
    simp [run, htext, hg, hex, hinit, hpipe]
  · intro base expand dgm req ext ts c0 htext hg0 ho hex hoinit hoc0 hempty
    have hpipe : openai_pipeline ext (cleanedPersonality req.personality)
        (strTrim req.text_content) (referenceTextOf ts) =
        (StageOut.failed "O modelo OpenAI nao retornou texto para o rascunho.",
         [content_prompt_template (cleanedPersonality req.personality)
            "Sintese direta realizada pelo modelo OpenAI." (strTrim req.text_content)
            (referenceTextOf ts)]) := by
      simp [openai_pipeline, hoc0, hempty]
    simp [run, htext, hg0, ho, hex, hoinit, hpipe]

/-- A response with non-blank top-level text, for the successful analysis
call of the C6 witness scenario. -/
def c6_good_response : GenResponse :=
  { text := some "resumo estruturado", candidates := none }

/-- A response whose text is blank and which has no candidates: its
extracted text is empty. -/
def c6_empty_response : GenResponse :=
  { text := some "", candidates := none }

/-- External world for the C6 witness: the analysis call succeeds with text,
the draft call succeeds with empty text. -/
def c6_ext : ExtCalls :=
  { geminiInitResult := .ok (), openaiInitResult := .ok (),
    geminiCall := fun n _ => if n = 0 then .ok c6_good_response else .ok c6_empty_response,
    openaiCall := fun _ _ _ => .error "indisponivel",
    mdToHtml := fun s => s,
    renderPdf := fun _ => .error "indisponivel" }

/-- A validation-passing Gemini request for the C6 and C9 witnesses. -/
def gemini_request : Request :=
  { text_content := "Historia da empresa", personality := "formal",
    google_api_key := "chave-google", openai_api_key := "", output_path := "",
    google_model := "", google_edit_model := "", openai_model := "", files := [] }

/-- C6 witness: with a successful analysis and an empty draft, the run ends
in the draft-stage 500 with exactly two prompts sent and no renderer call. -/
theorem c6_witness :
    run ["srv", "app"] (fun _ => []) "gemini-2.5-pro" gemini_request c6_ext =
      (HandlerResult.json "O modelo Gemini nao retornou texto para o rascunho." 500,
       { mkdirs := [["srv", "app"]],
         geminiInitTried := true, openaiInitTried := false,
         geminiPrompts :=
           [analysis_prompt "Historia da empresa" "Nenhuma",
            content_prompt_template "formal" "resumo estruturado"
              "Historia da empresa" "Nenhuma"],
         openaiPrompts := [], renderCalls := [], fileWrites := [] }) :=
  (c6_draft_stage_empty_halts.1 ["srv", "app"] (fun _ => []) "gemini-2.5-pro" gemini_request
    c6_ext [] c6_good_response c6_empty_response
    (by decide) (by decide) rfl rfl rfl (by decide) rfl (by decide)).trans (by rfl)

/-- C9: the rendered document is never persisted.  First conjunct: on every
request whatsoever the handler writes no file.  Second and third conjuncts
(Gemini and OpenAI branches): on a successful request the response is
exactly the renderer's bytes as a download whose attachment filename is the
resolved output path's final name — that path contributes nothing else. -/
theorem c9_rendered_document_not_persisted :
    (∀ (base : List String) (expand : String → List String) (dgm : String) (req : Request) (ext : ExtCalls),
       (run base expand dgm req ext).2.fileWrites = []) ∧
    (∀ (base : List String) (expand : String → List String) (dgm : String) (req : Request) (ext : ExtCalls)
       (ts : List String) (r0 r1 r2 : GenResponse) (bytes : List Nat),
       strTrim req.text_content ≠ "" →
       strTrim req.google_api_key ≠ "" →
       extract_text_from_uploads req.files = Except.ok ts →
       ext.geminiInitResult = Except.ok () →
       ext.geminiCall 0 (analysis_prompt (strTrim req.text_content) (referenceTextOf ts)) =
         Except.ok r0 →
       strTrim (response_text r0) ≠ "" →
       ext.geminiCall 1 (content_prompt_template (cleanedPersonality req.personality)
           (strTrim (response_text r0)) (strTrim req.text_content) (referenceTextOf ts)) =
         Except.ok r1 →
       strTrim (response_text r1) ≠ "" →
       ext.geminiCall 2 (edit_prompt (strTrim (response_text r1))) = Except.ok r2 →
       strTrim (response_text r2) ≠ "" →
       ext.renderPdf (ext.mdToHtml (strTrim (response_text r2))) = Except.ok bytes →
       run base expand dgm req ext =
         (HandlerResult.pdf bytes
            (pathName (resolved_output base expand (strTrim req.output_path))),
          { mkdirs := [(resolved_output base expand (strTrim req.output_path)).dropLast],
            geminiInitTried := true, openaiInitTried := false,
            geminiPrompts :=
              [analysis_prompt (strTrim req.text_content) (referenceTextOf ts),
               content_prompt_template (cleanedPersonality req.personality)
                 (strTrim (response_text r0)) (strTrim req.text_content) (referenceTextOf ts),
               edit_prompt (strTrim (response_text r1))],
            openaiPrompts := [],
            renderCalls := [ext.mdToHtml (strTrim (response_text r2))],
            fileWrites := [] })) ∧
    (∀ (base : List String) (expand : String → List String) (dgm : String) (req : Request) (ext : ExtCalls)
       (ts : List String) (c0 c1 : String) (bytes : List Nat),
       strTrim req.text_content ≠ "" →
       strTrim req.google_api_key = "" →
       strTrim req.openai_api_key ≠ "" →
       extract_text_from_uploads req.files = Except.ok ts →
       ext.openaiInitResult = Except.ok () →
       ext.openaiCall 0 (content_prompt_template (cleanedPersonality req.personality)
           "Sintese direta realizada pelo modelo OpenAI." (strTrim req.text_content)
           (referenceTextOf ts))
         "Produza o ebook completo seguindo fielmente as instrucoes acima." =
         Except.ok c0 →
       strTrim c0 ≠ "" →
       ext.openaiCall 1 (edit_prompt (strTrim c0))
         "Por favor, revise o rascunho conforme as diretrizes." = Except.ok c1 →
       strTrim c1 ≠ "" →
       ext.renderPdf (ext.mdToHtml (strTrim c1)) = Except.ok bytes →
       run base expand dgm req ext =
         (HandlerResult.pdf bytes
            (pathName (resolved_output base expand (strTrim req.output_path))),
          { mkdirs := [(resolved_output base expand (strTrim req.output_path)).dropLast],
            geminiInitTried := false, openaiInitTried := true,
            geminiPrompts := [],
            openaiPrompts :=
              [content_prompt_template (cleanedPersonality req.personality)
                 "Sintese direta realizada pelo modelo OpenAI." (strTrim req.text_content)
                 (referenceTextOf ts),
               edit_prompt (strTrim c0)],
            renderCalls := [ext.mdToHtml (strTrim c1)],
            fileWrites := [] })) := by
  refine ⟨fun base expand dgm req ext => (run_cases base expand dgm req ext).2.1, ?_, ?_⟩
  · intro base expand dgm req ext ts r0 r1 r2 bytes htext hg hex hinit
      hcall0 h5 hcall1 h6 hcall2 h7 hrender
    have hpipe : gemini_pipeline ext (cleanedPersonality req.personality)
        (strTrim req.text_content) (referenceTextOf ts) =
        (StageOut.done (strTrim (response_text r2)),
         [analysis_prompt (strTrim req.text_content) (referenceTextOf ts),
          content_prompt_template (cleanedPersonality req.personality)
            (strTrim (response_text r0)) (strTrim req.text_content) (referenceTextOf ts),
          edit_prompt (strTrim (response_text r1))]) := by
      simp [gemini_pipeline, hcall0, h5, hcall1, h6, hcall2, h7]
    simp [run, htext, hg, hex, hinit, hpipe, render_and_respond, hrender]
  · intro base expand dgm req ext ts c0 c1 bytes htext hg0 ho hex hoinit
      hoc0 h5 hoc1 h6 hrender
    have hpipe : openai_pipeline ext (cleanedPersonality req.personality)
        (strTrim req.text_content) (referenceTextOf ts) =
        (StageOut.done (strTrim c1),
         [content_prompt_template (cleanedPersonality req.personality)
            "Sintese direta realizada pelo modelo OpenAI." (strTrim req.text_content)
            (referenceTextOf ts),
          edit_prompt (strTrim c0)]) := by
      simp [openai_pipeline, hoc0, h5, hoc1, h6]
    simp [run, htext, hg0, ho, hex, hoinit, hpipe, render_and_respond, hrender]

/-- A response with fixed non-blank top-level text for every stage of the C9
witness scenario. -/
def c9_response : GenResponse :=
  { text := some "conteudo final", candidates := none }

/-- External world for the C9 witness: every Gemini call returns the fixed
text, markdown conversion is the identity, the renderer returns the byte
signature `%PDF`. -/
def c9_ext : ExtCalls :=
  { geminiInitResult := .ok (), openaiInitResult := .ok (),
    geminiCall := fun _ _ => .ok c9_response,
    openaiCall := fun _ _ _ => .error "indisponivel",
    mdToHtml := fun s => s,
    renderPdf := fun _ => .ok [37, 80, 68, 70] }

/-- C9 witness: a fully successful Gemini run streams the renderer's bytes
under the default attachment name `ebook_gerado.pdf`, with no file write. -/
theorem c9_witness :
    run ["srv", "app"] (fun _ => []) "gemini-2.5-pro" gemini_request c9_ext =
      (HandlerResult.pdf [37, 80, 68, 70] "ebook_gerado.pdf",
       { mkdirs := [["srv", "app"]],
         geminiInitTried := true, openaiInitTried := false,
         geminiPrompts :=
           [analysis_prompt "Historia da empresa" "Nenhuma",
            content_prompt_template "formal" "conteudo final"
              "Historia da empresa" "Nenhuma",
            edit_prompt "conteudo final"],
         openaiPrompts := [], renderCalls := ["conteudo final"],
         fileWrites := [] }) :=
  (c9_rendered_document_not_persisted.2.1 ["srv", "app"] (fun _ => []) "gemini-2.5-pro"
    gemini_request c9_ext [] c9_response c9_response c9_response [37, 80, 68, 70]
    (by decide) (by decide) rfl rfl rfl (by decide) rfl (by decide) rfl (by decide)
    rfl).trans (by rfl)

/-- C10 witness: even the all-default request — rejected by the empty-text
validation — gets its output parent directory created. -/
theorem c10_witness :
    (run ["srv", "app"] (fun _ => []) "gemini-2.5-pro" plain_request trivialExt).2.mkdirs =
      [["srv", "app"]] ∧
    (run ["srv", "app"] (fun _ => []) "gemini-2.5-pro" plain_request trivialExt).1 =
      HandlerResult.json "Conteudo de texto e obrigatorio." 400 :=
  ⟨((c10_mkdir_precedes_validation ["srv", "app"] (fun _ => []) "gemini-2.5-pro" plain_request
      trivialExt).1).trans (by rfl),
   (c10_mkdir_precedes_validation ["srv", "app"] (fun _ => []) "gemini-2.5-pro" plain_request
      trivialExt).2 (by rfl)⟩
